import Mathlib

/-!
Verification development for the po-parser tool (src/main.rs): a scanner
for gettext catalog files that reports translation lines missing the
interpolation placeholders of their msgid.

The Rust source is embedded shallowly:
  * a compiled regular expression is abstracted as a function
    String → List String returning the ordered list of matched substrings
    (regex find_iter), and the fallible compiler Regex::new as
    String → Option (String → List String);
  * find_missing_interpolations, process_file and main are translated
    function by function; Rust ? propagation and panics become Except;
  * file contents and the directory listing are explicit data, so a scan
    is a pure function of them.
-/

/-- Characterwise test that the first list is a leading segment of the
second; this is the comparison underlying Rust str::starts_with. -/
def charsPre : List Char → List Char → Bool
  | [], _ => true
  | _ :: _, [] => false
  | a :: as, b :: bs => a == b && charsPre as bs

/-- Characterwise test that the first list occurs contiguously somewhere
inside the second; this is the comparison underlying Rust str::contains. -/
def charsIn : List Char → List Char → Bool
  | m, [] => charsPre m []
  | m, c :: cs => charsPre m (c :: cs) || charsIn m cs

/-- Rust str::starts_with on strings. -/
def strStarts (s p : String) : Bool := charsPre p.data s.data

/-- Rust str::contains on strings: the second string is a literal substring
of the first. -/
def strHas (s m : String) : Bool := charsIn m.data s.data

/-- The InterpolationParams struct of src/main.rs.  The ProgressBar
reference is represented by the only datum the matcher reads from it,
pb.message(). -/
structure InterpolationParams where
  pbMessage : String
  path : String
  pattern : String
  last_msgid : String
  line : String
  /-- A u32 in the source; the scanner that fills it performs its
  arithmetic modulo 2 ^ 32, so the value stored here is always below
  that bound. -/
  line_index : Nat

/-- The format! call of find_missing_interpolations, field for field. -/
def formatError (params : InterpolationParams) : String :=
  params.pbMessage ++ "\x1b[31m[ERROR] Missing interpolation in " ++ params.path ++ ":" ++
    toString params.line_index ++ "\n\t" ++ params.last_msgid ++ "\n\t" ++
    params.line ++ "\x1b[0m"

/-- Message of the panic raised by Regex::new(..).unwrap() on a pattern
that fails to compile. -/
def unwrapPanicMsg : String := "called Result::unwrap on an Err value"

/-- The for-loop of find_missing_interpolations: walk the msgid matches in
order and return the formatted error at the first one that is not a
literal substring of the line, unless the line is one of the two
intentionally-empty forms. -/
def missingSearch (params : InterpolationParams) : List String → Option String
  | [] => none
  | m :: rest =>
    if strHas params.line m = false ∧ params.line ≠ "msgstr \"\"" ∧ params.line ≠ "\"\"" then
      some (formatError params)
    else missingSearch params rest

/-- find_missing_interpolations of src/main.rs.  The regex engine is the
extra argument compile; Regex::new(&params.pattern).unwrap() panics
(Except.error) when the pattern does not compile. -/
def find_missing_interpolations (compile : String → Option (String → List String))
    (params : InterpolationParams) : Except String (Option String) :=
  match compile params.pattern with
  | none => Except.error unwrapPanicMsg
  | some regexFind =>
    let msgid_interpolations := regexFind params.last_msgid
    let msgstr_interpolations := regexFind params.line
    if msgid_interpolations.length ≠ msgstr_interpolations.length then
      Except.ok (missingSearch params msgid_interpolations)
    else
      Except.ok none

/-- Failure of one per-file scan task: an io::Error propagated by ?, or a
panic inside the task (surfacing as a JoinError to the coordinator). -/
inductive ScanFailure where
  | ioError (e : String)
  | panicked (msg : String)
deriving DecidableEq

/-- Size of the u32 type: line_index in src/main.rs is a u32, so every
increment of the counter is performed modulo this bound (release-build
wrapping semantics). -/
def u32size : Nat := 4294967296

/-- The for-loop of process_file of src/main.rs.  A file's content is a
list of line reads, each Except.ok text or Except.error e as produced by
BufReader lines; last_msgid and line_index are the two loop-carried
variables, line_index counting every physical line.  line_index is a u32
in the source, so the unconditional increment wraps modulo u32size. -/
def processLines (compile : String → Option (String → List String))
    (pbMsg path pattern : String) :
    String → Nat → List (Except String String) → Except ScanFailure (List String)
  | _, _, [] => Except.ok []
  | _, _, Except.error e :: _ => Except.error (ScanFailure.ioError e)
  | last_msgid, i, Except.ok line :: rest =>
    if strStarts line "msgid" then
      processLines compile pbMsg path pattern line ((i + 1) % u32size) rest
    else if strStarts line "msgstr" || strStarts line "\"" then
      match find_missing_interpolations compile
          ⟨pbMsg, path, pattern, last_msgid, line, i⟩ with
      | Except.error m => Except.error (ScanFailure.panicked m)
      | Except.ok (some err) =>
        Except.map (fun es => err :: es)
          (processLines compile pbMsg path pattern last_msgid ((i + 1) % u32size) rest)
      | Except.ok none =>
        processLines compile pbMsg path pattern last_msgid ((i + 1) % u32size) rest
    else
      processLines compile pbMsg path pattern last_msgid ((i + 1) % u32size) rest

/-- process_file of src/main.rs.  contents is the outcome of File::open
followed by the stream of line reads; last_msgid starts empty and
line_index starts at 1. -/
def process_file (compile : String → Option (String → List String))
    (pbMsg path pattern : String)
    (contents : Except String (List (Except String String))) :
    Except ScanFailure (List String) :=
  match contents with
  | Except.error e => Except.error (ScanFailure.ioError e)
  | Except.ok lines => processLines compile pbMsg path pattern "" 1 lines

/-- One entry of the directory listing, carrying the data main reads from
it: path.is_file(), path.extension() and the path itself. -/
structure DirEntry where
  isFile : Bool
  ext : Option String
  path : String

/-- The external world a run reads: the directory listing (read_dir, each
entry itself fallible) and the content of each file by path. -/
structure World where
  dirEntries : Except String (List (Except String DirEntry))
  readFile : String → Except String (List (Except String String))

/-- The spawn loop of main: walk the directory entries in order,
propagating the first entry error, and collect the paths of the regular
files with extension po (the files for which a scan task is spawned). -/
def gatherPoFiles : List (Except String DirEntry) → Except String (List String)
  | [] => Except.ok []
  | Except.error e :: _ => Except.error e
  | Except.ok entry :: rest =>
    if entry.isFile && entry.ext == some "po" then
      Except.map (fun ps => entry.path :: ps) (gatherPoFiles rest)
    else gatherPoFiles rest

/-- The await loop of main: await each scan task in spawn order.  First
component: the error reports printed so far (each completed task's list is
printed before the next await); second: Err at the first task failure,
otherwise Ok of all_errors, the concatenation of every task's reports. -/
def awaitTasks (compile : String → Option (String → List String))
    (pbMsg pattern : String)
    (readFile : String → Except String (List (Except String String))) :
    List String → List String × Except ScanFailure (List String)
  | [] => ([], Except.ok [])
  | p :: ps =>
    match process_file compile pbMsg p pattern (readFile p) with
    | Except.error f => ([], Except.error f)
    | Except.ok errs =>
      let r := awaitTasks compile pbMsg pattern readFile ps
      (errs ++ r.1, Except.map (fun es => errs ++ es) r.2)

/-- How the process ends: main returns Err (a nonzero runtime failure),
calls process::exit(1), or returns Ok after printing Done. -/
inductive ProcessOutcome where
  | runtimeError (msg : String)
  | exitFailure
  | success
deriving DecidableEq

/-- The red no-files diagnostic of main. -/
def noPoMsg (dir : String) : String :=
  "\x1b[0;31m[ERROR] No .po files found in " ++ dir ++ "\x1b[0m"

/-- The cyan processing diagnostic of main. -/
def processingMsg (dir : String) : String :=
  "\x1b[0;36m[INFO]  Processing .po files in " ++ dir ++ "\x1b[0m"

/-- The cyan final line of main. -/
def doneMsg : String := "\x1b[0;36m[INFO]  Done\x1b[0m"

/-- main of src/main.rs as a function of the regex engine, the directory
path, the pattern text and the world.  Returns the process outcome paired
with the lines printed, in order. -/
def mainRun (compile : String → Option (String → List String))
    (dir pattern : String) (world : World) : ProcessOutcome × List String :=
  match world.dirEntries with
  | Except.error e => (ProcessOutcome.runtimeError e, [])
  | Except.ok entries =>
    match gatherPoFiles entries with
    | Except.error e => (ProcessOutcome.runtimeError e, [])
    | Except.ok poFiles =>
      if poFiles.isEmpty then
        (ProcessOutcome.exitFailure, [noPoMsg dir])
      else
        match awaitTasks compile "" pattern world.readFile poFiles with
        | (printed, Except.error (ScanFailure.ioError e)) =>
          (ProcessOutcome.runtimeError e, processingMsg dir :: printed)
        | (printed, Except.error (ScanFailure.panicked m)) =>
          (ProcessOutcome.runtimeError m, processingMsg dir :: printed)
        | (printed, Except.ok allErrors) =>
          if allErrors.isEmpty then
            (ProcessOutcome.success, processingMsg dir :: printed ++ [doneMsg])
          else
            (ProcessOutcome.exitFailure, processingMsg dir :: printed)

/-! ## Helper lemmas about the matcher loop -/

/-- If the first msgid match that is not a literal substring of the line
exists (in order of appearance), and the line is not one of the two
intentionally-empty forms, the loop returns the formatted error. -/
theorem missingSearch_eq_some_of_find (params : InterpolationParams) (S : List String)
    (p : String)
    (h1 : params.line ≠ "msgstr \"\"") (h2 : params.line ≠ "\"\"")
    (h3 : S.find? (fun m => !(strHas params.line m)) = some p) :
    missingSearch params S = some (formatError params) := by
  induction S with
  | nil => simp [List.find?] at h3
  | cons m rest ih =>
    cases hc : strHas params.line m with
    | false =>
      simp only [missingSearch]
      rw [if_pos ⟨hc, h1, h2⟩]
    | true =>
      simp only [missingSearch]
      rw [if_neg (by simp [hc])]
      apply ih
      simpa [List.find?, hc] using h3

/-- If every msgid match is a literal substring of the line, or the line
is one of the two intentionally-empty forms, the loop finds nothing. -/
theorem missingSearch_eq_none (params : InterpolationParams) (S : List String)
    (h : (∀ m ∈ S, strHas params.line m = true) ∨
          params.line = "msgstr \"\"" ∨ params.line = "\"\"") :
    missingSearch params S = none := by
  induction S with
  | nil => rfl
  | cons m rest ih =>
    have hrest : (∀ x ∈ rest, strHas params.line x = true) ∨
        params.line = "msgstr \"\"" ∨ params.line = "\"\"" := by
      rcases h with h | h
      · exact Or.inl fun x hx => h x (List.mem_cons_of_mem _ hx)
      · exact Or.inr h
    have hcond : ¬(strHas params.line m = false ∧
        params.line ≠ "msgstr \"\"" ∧ params.line ≠ "\"\"") := by
      rcases h with h | h | h
      · rintro ⟨hc1, -, -⟩
        rw [h m (List.mem_cons_self m rest)] at hc1
        exact Bool.true_eq_false.mp hc1
      · rintro ⟨-, hc2, -⟩; exact hc2 h
      · rintro ⟨-, -, hc3⟩; exact hc3 h
    simp only [missingSearch]
    rw [if_neg hcond]
    exact ih hrest

/-! ## Claims about the Placeholder Matcher -/

/-- Claim C1: for every pattern, source text and translation line, if the
number of pattern matches in the source differs from the number in the
translation, the Matcher walks the source's matched placeholders in order
of appearance and returns Missing (the formatted error) for the first one
that is not a literal substring of the translation, provided the line is
neither msgstr "" nor ""; being an Option, the result carries no further
reports for that line pair. -/
theorem c1_first_missing_reported
    (compile : String → Option (String → List String)) (params : InterpolationParams)
    (f : String → List String) (p : String)
    (hcomp : compile params.pattern = some f)
    (hlen : (f params.last_msgid).length ≠ (f params.line).length)
    (h1 : params.line ≠ "msgstr \"\"") (h2 : params.line ≠ "\"\"")
    (hfind : (f params.last_msgid).find? (fun m => !(strHas params.line m)) = some p) :
    find_missing_interpolations compile params = Except.ok (some (formatError params)) := by
  simp only [find_missing_interpolations, hcomp]
  rw [if_pos hlen, missingSearch_eq_some_of_find params _ p h1 h2 hfind]

/-- Claim C1 witness: source msgid with placeholder user, translation
msgstr "Welcome" lacking it. -/
theorem c1_first_missing_reported_witness :
    find_missing_interpolations
        (fun q => if q = "P" then
          some (fun s => if s = "msgid \"Welcome \x7buser\x7d\"" then ["\x7buser\x7d"] else [])
         else none)
        ⟨"", "a.po", "P", "msgid \"Welcome \x7buser\x7d\"", "msgstr \"Welcome\"", 2⟩ =
      Except.ok (some (formatError
        ⟨"", "a.po", "P", "msgid \"Welcome \x7buser\x7d\"", "msgstr \"Welcome\"", 2⟩)) :=
  c1_first_missing_reported _ _
    (fun s => if s = "msgid \"Welcome \x7buser\x7d\"" then ["\x7buser\x7d"] else [])
    "\x7buser\x7d" rfl (by decide) (by decide) (by decide) (by decide)

/-- Claim C2: for every pattern, source text and translation line, equal
match counts yield Match, regardless of which substrings matched. -/
theorem c2_equal_counts_match
    (compile : String → Option (String → List String)) (params : InterpolationParams)
    (f : String → List String)
    (hcomp : compile params.pattern = some f)
    (hlen : (f params.last_msgid).length = (f params.line).length) :
    find_missing_interpolations compile params = Except.ok none := by
  simp only [find_missing_interpolations, hcomp]
  rw [if_neg (by simp [hlen])]

/-- Claim C2 witness: two placeholders on each side, with different
names, still Match. -/
theorem c2_equal_counts_match_witness :
    find_missing_interpolations
        (fun q => if q = "P" then
          some (fun s =>
            if s = "msgid \"Hi \x7bname\x7d, you have \x7bcount\x7d items\"" then
              ["\x7bname\x7d", "\x7bcount\x7d"]
            else if s = "msgstr \"\x7bcount\x7d \x7bname\x7d\"" then
              ["\x7bcount\x7d", "\x7bname\x7d"]
            else [])
         else none)
        ⟨"", "a.po", "P", "msgid \"Hi \x7bname\x7d, you have \x7bcount\x7d items\"",
          "msgstr \"\x7bcount\x7d \x7bname\x7d\"", 2⟩ =
      Except.ok none :=
  c2_equal_counts_match _ _
    (fun s =>
      if s = "msgid \"Hi \x7bname\x7d, you have \x7bcount\x7d items\"" then
        ["\x7bname\x7d", "\x7bcount\x7d"]
      else if s = "msgstr \"\x7bcount\x7d \x7bname\x7d\"" then
        ["\x7bcount\x7d", "\x7bname\x7d"]
      else [])
    rfl (by decide)

/-- Claim C3: for every pattern, source text and translation line with
unequal match counts, if every source match occurs literally in the
translation, or the line is msgstr "" or "", the Matcher returns Match; a
count mismatch alone is never reported. -/
theorem c3_containment_or_empty_match
    (compile : String → Option (String → List String)) (params : InterpolationParams)
    (f : String → List String)
    (hcomp : compile params.pattern = some f)
    (hlen : (f params.last_msgid).length ≠ (f params.line).length)
    (h : (∀ m ∈ f params.last_msgid, strHas params.line m = true) ∨
          params.line = "msgstr \"\"" ∨ params.line = "\"\"") :
    find_missing_interpolations compile params = Except.ok none := by
  simp only [find_missing_interpolations, hcomp]
  rw [if_pos hlen, missingSearch_eq_none params _ h]

/-- Claim C3 witness: source matches a and b, translation has three
matches but contains both literally. -/
theorem c3_containment_or_empty_match_witness :
    find_missing_interpolations
        (fun q => if q = "P" then
          some (fun s =>
            if s = "msgid \"\x7ba\x7d\x7bb\x7d\"" then ["\x7ba\x7d", "\x7bb\x7d"]
            else if s = "msgstr \"\x7ba\x7d\x7ba\x7d\x7bb\x7d\"" then
              ["\x7ba\x7d", "\x7ba\x7d", "\x7bb\x7d"]
            else [])
         else none)
        ⟨"", "a.po", "P", "msgid \"\x7ba\x7d\x7bb\x7d\"",
          "msgstr \"\x7ba\x7d\x7ba\x7d\x7bb\x7d\"", 2⟩ =
      Except.ok none :=
  c3_containment_or_empty_match _ _
    (fun s =>
      if s = "msgid \"\x7ba\x7d\x7bb\x7d\"" then ["\x7ba\x7d", "\x7bb\x7d"]
      else if s = "msgstr \"\x7ba\x7d\x7ba\x7d\x7bb\x7d\"" then
        ["\x7ba\x7d", "\x7ba\x7d", "\x7bb\x7d"]
      else [])
    rfl (by decide) (Or.inl (by decide))

/-- A source text with no pattern match makes the Matcher return Match,
whatever the translation is: with zero msgid matches either the counts
are equal or the loop has nothing to walk. -/
theorem matcher_no_msgid_matches
    (compile : String → Option (String → List String)) (params : InterpolationParams)
    (f : String → List String)
    (hcomp : compile params.pattern = some f)
    (hnil : f params.last_msgid = []) :
    find_missing_interpolations compile params = Except.ok none := by
  simp only [find_missing_interpolations, hcomp, hnil]
  by_cases h : ([] : List String).length ≠ (f params.line).length
  · rw [if_pos h]; rfl
  · rw [if_neg h]

/-- Before any msgid line, the scanner's current msgid is still the empty
string; if the pattern has no match in the empty string, a run of
non-msgid lines produces no report at all. -/
theorem processLines_before_first_msgid
    (compile : String → Option (String → List String))
    (pbMsg path pattern : String) (f : String → List String)
    (hcomp : compile pattern = some f) (hempty : f "" = []) :
    ∀ (lines : List String) (i : Nat), (∀ l ∈ lines, strStarts l "msgid" = false) →
      processLines compile pbMsg path pattern "" i (lines.map Except.ok) =
        Except.ok [] := by
  intro lines
  induction lines with
  | nil => intro i _; rfl
  | cons l rest ih =>
    intro i hno
    have hl : strStarts l "msgid" = false := hno l (List.mem_cons_self l rest)
    have hrest : ∀ x ∈ rest, strStarts x "msgid" = false :=
      fun x hx => hno x (List.mem_cons_of_mem _ hx)
    simp only [List.map_cons, processLines, hl]
    cases hq : (strStarts l "msgstr" || strStarts l "\"") with
    | true =>
      have hm := matcher_no_msgid_matches compile
        ⟨pbMsg, path, pattern, "", l, i⟩ f hcomp hempty
      simp only [hq, hm, Bool.false_eq_true, if_false, if_true]
      exact ih ((i + 1) % u32size) hrest
    | false =>
      simp only [hq, Bool.false_eq_true, if_false]
      exact ih ((i + 1) % u32size) hrest

/-- Claim C10: for every pattern and translation line, a current msgid
with no pattern match (the initial empty msgid in particular) makes the
Matcher return Match regardless of the translation; consequently msgstr-
or quote-prefixed lines before the first msgid line of a file never
produce an error report. -/
theorem c10_empty_msgid_never_reports :
    (∀ (compile : String → Option (String → List String))
        (params : InterpolationParams) (f : String → List String),
        compile params.pattern = some f → f params.last_msgid = [] →
        find_missing_interpolations compile params = Except.ok none)
  ∧ (∀ (compile : String → Option (String → List String))
        (pbMsg path pattern : String) (f : String → List String)
        (lines : List String) (i : Nat),
        compile pattern = some f → f "" = [] →
        (∀ l ∈ lines, strStarts l "msgid" = false) →
        processLines compile pbMsg path pattern "" i (lines.map Except.ok) =
          Except.ok []) :=
  ⟨fun compile params f hcomp hnil =>
      matcher_no_msgid_matches compile params f hcomp hnil,
   fun compile pbMsg path pattern f lines i hcomp hempty hno =>
      processLines_before_first_msgid compile pbMsg path pattern f hcomp hempty lines i hno⟩

/-- Claim C10 witness: a translation-only file prefix with the initial
empty msgid yields no report. -/
theorem c10_empty_msgid_never_reports_witness :
    find_missing_interpolations
        (fun q => if q = "P" then
          some (fun s => if s = "msgstr \"\x7bx\x7d\"" then ["\x7bx\x7d"] else [])
         else none)
        ⟨"", "a.po", "P", "", "msgstr \"\x7bx\x7d\"", 1⟩ = Except.ok none
  ∧ processLines
        (fun q => if q = "P" then
          some (fun s => if s = "msgstr \"\x7bx\x7d\"" then ["\x7bx\x7d"] else [])
         else none)
        "" "a.po" "P" "" 1
        (["msgstr \"\x7bx\x7d\"", "\"more \x7by\x7d\"", "# comment"].map Except.ok) =
      Except.ok [] :=
  ⟨c10_empty_msgid_never_reports.1 _ _
      (fun s => if s = "msgstr \"\x7bx\x7d\"" then ["\x7bx\x7d"] else [])
      rfl rfl,
   c10_empty_msgid_never_reports.2 _ "" "a.po" "P"
      (fun s => if s = "msgstr \"\x7bx\x7d\"" then ["\x7bx\x7d"] else [])
      ["msgstr \"\x7bx\x7d\"", "\"more \x7by\x7d\"", "# comment"] 1
      rfl rfl (by decide)⟩

/-! ## Claims about the Catalog Line Scanner -/

/-- Claim C4: one scanner step per line, current msgid initialized empty
by process_file: a msgid-prefixed line is stored verbatim as the new
current msgid and the Matcher is not invoked on it; a msgstr- or
quote-prefixed line goes to the Matcher with the current msgid, and an
error report is prepended to the remaining reports exactly when the
Matcher reports Missing; every other line is ignored and changes no
state.  In all four cases the line counter advances by one, with the
wrapping u32 arithmetic of the source. -/
theorem c4_scanner_dispatch :
    (∀ (compile : String → Option (String → List String))
        (pbMsg path pattern msgid : String) (i : Nat) (line : String)
        (rest : List (Except String String)),
        strStarts line "msgid" = true →
        processLines compile pbMsg path pattern msgid i (Except.ok line :: rest) =
          processLines compile pbMsg path pattern line ((i + 1) % u32size) rest)
  ∧ (∀ (compile : String → Option (String → List String))
        (pbMsg path pattern msgid : String) (i : Nat) (line err : String)
        (rest : List (Except String String)),
        strStarts line "msgid" = false →
        (strStarts line "msgstr" = true ∨ strStarts line "\"" = true) →
        find_missing_interpolations compile ⟨pbMsg, path, pattern, msgid, line, i⟩ =
          Except.ok (some err) →
        processLines compile pbMsg path pattern msgid i (Except.ok line :: rest) =
          Except.map (fun es => err :: es)
            (processLines compile pbMsg path pattern msgid ((i + 1) % u32size) rest))
  ∧ (∀ (compile : String → Option (String → List String))
        (pbMsg path pattern msgid : String) (i : Nat) (line : String)
        (rest : List (Except String String)),
        strStarts line "msgid" = false →
        (strStarts line "msgstr" = true ∨ strStarts line "\"" = true) →
        find_missing_interpolations compile ⟨pbMsg, path, pattern, msgid, line, i⟩ =
          Except.ok none →
        processLines compile pbMsg path pattern msgid i (Except.ok line :: rest) =
          processLines compile pbMsg path pattern msgid ((i + 1) % u32size) rest)
  ∧ (∀ (compile : String → Option (String → List String))
        (pbMsg path pattern msgid : String) (i : Nat) (line : String)
        (rest : List (Except String String)),
        strStarts line "msgid" = false → strStarts line "msgstr" = false →
        strStarts line "\"" = false →
        processLines compile pbMsg path pattern msgid i (Except.ok line :: rest) =
          processLines compile pbMsg path pattern msgid ((i + 1) % u32size) rest) := by
  refine ⟨?_, ?_, ?_, ?_⟩
  · intro compile pbMsg path pattern msgid i line rest h1
    simp [processLines, h1]
  · intro compile pbMsg path pattern msgid i line err rest h1 h2 hm
    have hq : (strStarts line "msgstr" || strStarts line "\"") = true := by
      rcases h2 with h | h <;> simp [h]
    simp [processLines, h1, hq, hm]
  · intro compile pbMsg path pattern msgid i line rest h1 h2 hm
    have hq : (strStarts line "msgstr" || strStarts line "\"") = true := by
      rcases h2 with h | h <;> simp [h]
    simp [processLines, h1, hq, hm]
  · intro compile pbMsg path pattern msgid i line rest h1 h2 h3
    simp [processLines, h1, h2, h3]

/-- Claim C4 witness: the four dispatch cases at concrete lines. -/
theorem c4_scanner_dispatch_witness :
    processLines (fun _ => some (fun _ => [])) "" "a.po" "P" "old" 3
        (Except.ok "msgid \"new\"" :: []) =
      processLines (fun _ => some (fun _ => [])) "" "a.po" "P" "msgid \"new\"" 4 []
  ∧ processLines
        (fun _ => some (fun s => if s = "msgid \"\x7ba\x7d\"" then ["\x7ba\x7d"] else []))
        "" "a.po" "P" "msgid \"\x7ba\x7d\"" 5 (Except.ok "msgstr \"b\"" :: []) =
      Except.map
        (fun es => formatError ⟨"", "a.po", "P", "msgid \"\x7ba\x7d\"", "msgstr \"b\"", 5⟩ :: es)
        (processLines
          (fun _ => some (fun s => if s = "msgid \"\x7ba\x7d\"" then ["\x7ba\x7d"] else []))
          "" "a.po" "P" "msgid \"\x7ba\x7d\"" 6 [])
  ∧ processLines
        (fun _ => some (fun s => if s = "msgid \"\x7ba\x7d\"" then ["\x7ba\x7d"] else []))
        "" "a.po" "P" "msgid \"\x7ba\x7d\"" 5 (Except.ok "msgstr \"keep \x7ba\x7d\"" :: []) =
      processLines
        (fun _ => some (fun s => if s = "msgid \"\x7ba\x7d\"" then ["\x7ba\x7d"] else []))
        "" "a.po" "P" "msgid \"\x7ba\x7d\"" 6 []
  ∧ processLines (fun _ => some (fun _ => [])) "" "a.po" "P" "old" 3
        (Except.ok "# comment" :: []) =
      processLines (fun _ => some (fun _ => [])) "" "a.po" "P" "old" 4 [] :=
  ⟨c4_scanner_dispatch.1 _ "" "a.po" "P" "old" 3 "msgid \"new\"" [] (by decide),
   c4_scanner_dispatch.2.1 _ "" "a.po" "P" "msgid \"\x7ba\x7d\"" 5 "msgstr \"b\""
     (formatError ⟨"", "a.po", "P", "msgid \"\x7ba\x7d\"", "msgstr \"b\"", 5⟩) []
     (by decide) (Or.inl (by decide)) rfl,
   c4_scanner_dispatch.2.2.1 _ "" "a.po" "P" "msgid \"\x7ba\x7d\"" 5 "msgstr \"keep \x7ba\x7d\"" []
     (by decide) (Or.inl (by decide)) rfl,
   c4_scanner_dispatch.2.2.2 _ "" "a.po" "P" "old" 3 "# comment" []
     (by decide) (by decide) (by decide)⟩

/-- Pair each line with its position, counting up from n: with n = 1 this
is the spec's Line Record, a line of text plus its 1-based index within
the file, the index incrementing for every line. -/
def stamp : Nat → List String → List (String × Nat)
  | _, [] => []
  | n, l :: rest => (l, n) :: stamp (n + 1) rest

/-- Modelled from the spec: the scanner restated over Line Records, so
that the index a report carries is by construction the position stamped
on the line itself.  Stated for an already compiled pattern f; comparing
it with processLines settles how the implementation's running counter
relates to 1-based file positions. -/
def stampedScanSpec (f : String → List String) (pbMsg path pattern : String) :
    String → List (String × Nat) → List String
  | _, [] => []
  | msgid, (line, n) :: rest =>
    if strStarts line "msgid" then stampedScanSpec f pbMsg path pattern line rest
    else if strStarts line "msgstr" || strStarts line "\"" then
      match (if (f msgid).length ≠ (f line).length then
               missingSearch ⟨pbMsg, path, pattern, msgid, line, n⟩ (f msgid)
             else none) with
      | some err => err :: stampedScanSpec f pbMsg path pattern msgid rest
      | none => stampedScanSpec f pbMsg path pattern msgid rest
    else stampedScanSpec f pbMsg path pattern msgid rest

/-- The index stamping the implementation actually performs: the first
line carries n and each later line the previous index plus one, wrapped
by the u32 arithmetic of the counter. -/
def stampWrap : Nat → List String → List (String × Nat)
  | _, [] => []
  | n, l :: rest => (l, n) :: stampWrap ((n + 1) % u32size) rest

/-- On a file whose reads all succeed and whose pattern compiles, the
scanner's running counter agrees with stamping each line with the
u32-wrapped index sequence starting at 1: reports are exactly those of
the spec scanner on the wrap-stamped lines. -/
theorem processLines_eq_stamped
    (compile : String → Option (String → List String))
    (f : String → List String) (pbMsg path pattern : String)
    (hcomp : compile pattern = some f) :
    ∀ (ls : List String) (msgid : String) (i : Nat),
      processLines compile pbMsg path pattern msgid i (ls.map Except.ok) =
        Except.ok (stampedScanSpec f pbMsg path pattern msgid (stampWrap i ls)) := by
  intro ls
  induction ls with
  | nil => intro msgid i; rfl
  | cons l rest ih =>
    intro msgid i
    have hfm : find_missing_interpolations compile ⟨pbMsg, path, pattern, msgid, l, i⟩ =
        Except.ok (if (f msgid).length ≠ (f l).length then
            missingSearch ⟨pbMsg, path, pattern, msgid, l, i⟩ (f msgid)
          else none) := by
      simp only [find_missing_interpolations, hcomp]
      by_cases hl : (f msgid).length ≠ (f l).length
      · rw [if_pos hl, if_pos hl]
      · rw [if_neg hl, if_neg hl]
    simp only [List.map_cons, processLines, stampWrap, stampedScanSpec]
    cases h1 : strStarts l "msgid" with
    | true => simp only [if_true]; exact ih l ((i + 1) % u32size)
    | false =>
      simp only [Bool.false_eq_true, if_false]
      cases h2 : (strStarts l "msgstr" || strStarts l "\"") with
      | false =>
        simp only [Bool.false_eq_true, if_false]
        exact ih msgid ((i + 1) % u32size)
      | true =>
        simp only [if_true, hfm]
        cases ho : (if (f msgid).length ≠ (f l).length then
            missingSearch ⟨pbMsg, path, pattern, msgid, l, i⟩ (f msgid)
          else none) with
        | none => exact ih msgid ((i + 1) % u32size)
        | some err => rw [ih msgid ((i + 1) % u32size)]; rfl

/-- Below 2 ^ 32 lines the wrapped index sequence starting at n never
reaches the bound, so it coincides with the true positions. -/
theorem stampWrap_eq_stamp :
    ∀ (ls : List String) (n : Nat), n + ls.length ≤ u32size →
      stampWrap n ls = stamp n ls := by
  intro ls
  induction ls with
  | nil => intro n _; rfl
  | cons l rest ih =>
    intro n hn
    simp only [stampWrap, stamp]
    refine congrArg (fun t => (l, n) :: t) ?_
    cases rest with
    | nil => rfl
    | cons r rs =>
      have hlt : n + 1 < u32size := by
        simp only [List.length_cons] at hn
        omega
      rw [Nat.mod_eq_of_lt hlt]
      refine ih (n + 1) ?_
      simp only [List.length_cons] at hn ⊢
      omega

/-- Lines that are neither msgid, msgstr nor quote-prefixed are ignored
by the scanner: a block of k copies of such a line only advances the
wrapped counter by k. -/
theorem processLines_skip_ignored
    (compile : String → Option (String → List String))
    (pbMsg path pattern : String) (c : String)
    (h1 : strStarts c "msgid" = false) (h2 : strStarts c "msgstr" = false)
    (h3 : strStarts c "\"" = false) :
    ∀ (k i : Nat), i < u32size →
      ∀ (msgid : String) (rest : List (Except String String)),
      processLines compile pbMsg path pattern msgid i
          (List.replicate k (Except.ok c) ++ rest) =
        processLines compile pbMsg path pattern msgid ((i + k) % u32size) rest := by
  intro k
  induction k with
  | zero =>
    intro i hi msgid rest
    rw [List.replicate_zero, List.nil_append, Nat.add_zero, Nat.mod_eq_of_lt hi]
  | succ k ih =>
    intro i hi msgid rest
    rw [List.replicate_succ, List.cons_append]
    simp only [processLines, h1, h2, h3, Bool.or_self, Bool.false_eq_true, if_false]
    rw [ih ((i + 1) % u32size) (Nat.mod_lt _ (by decide)) msgid rest, Nat.mod_add_mod,
      show i + 1 + k = i + (k + 1) from by omega]

/-- The spec scanner likewise ignores such a block, whatever positions it
is stamped with, and continues at position n + k. -/
theorem stampedScanSpec_skip_ignored
    (f : String → List String) (pbMsg path pattern : String) (c : String)
    (h1 : strStarts c "msgid" = false) (h2 : strStarts c "msgstr" = false)
    (h3 : strStarts c "\"" = false) :
    ∀ (k n : Nat) (msgid : String) (rest : List String),
      stampedScanSpec f pbMsg path pattern msgid
          (stamp n (List.replicate k c ++ rest)) =
        stampedScanSpec f pbMsg path pattern msgid (stamp (n + k) rest) := by
  intro k
  induction k with
  | zero =>
    intro n msgid rest
    rw [List.replicate_zero, List.nil_append, Nat.add_zero]
  | succ k ih =>
    intro n msgid rest
    rw [List.replicate_succ, List.cons_append]
    simp only [stamp, stampedScanSpec, h1, h2, h3, Bool.or_self, Bool.false_eq_true, if_false]
    rw [ih (n + 1) msgid rest, show n + 1 + k = n + (k + 1) from by omega]

/-- One scanner step on a msgid line: the line becomes the current msgid
and the wrapped counter advances. -/
theorem processLines_msgid_step
    (compile : String → Option (String → List String))
    (pbMsg path pattern msgid : String) (i : Nat) (line : String)
    (rest : List (Except String String))
    (h : strStarts line "msgid" = true) :
    processLines compile pbMsg path pattern msgid i (Except.ok line :: rest) =
      processLines compile pbMsg path pattern line ((i + 1) % u32size) rest := by
  simp [processLines, h]

/-- Unfolding of the position stamping on a cons. -/
theorem stamp_cons (n : Nat) (l : String) (rest : List String) :
    stamp n (l :: rest) = (l, n) :: stamp (n + 1) rest := rfl

/-- One spec-scanner step on a stamped msgid line. -/
theorem stampedScanSpec_msgid_step (f : String → List String)
    (pbMsg path pattern msgid line : String) (n : Nat)
    (rest : List (String × Nat))
    (h : strStarts line "msgid" = true) :
    stampedScanSpec f pbMsg path pattern msgid ((line, n) :: rest) =
      stampedScanSpec f pbMsg path pattern line rest := by
  simp [stampedScanSpec, h]

/-- Claim C6 counterexample: line_index is a u32.  On a file of exactly
2 ^ 32 physical lines — a msgid with one placeholder, then
2 ^ 32 - 2 comment lines, then a failing msgstr line — the counter wraps
and the single report carries index 0, while the failing line's true
1-based position is u32size: stamping the lines with their positions
yields a report with a different index, hence different report text. -/
theorem c6_line_index_counterexample :
    process_file
        (fun q => if q = "P" then
          some (fun s => if s = "msgid \"\x7bu\x7d\"" then ["\x7bu\x7d"] else [])
         else none)
        "" "a.po" "P"
        (Except.ok (("msgid \"\x7bu\x7d\"" ::
            (List.replicate (u32size - 2) "# c" ++ ["msgstr \"bad\""])).map Except.ok)) =
      Except.ok [formatError
        ⟨"", "a.po", "P", "msgid \"\x7bu\x7d\"", "msgstr \"bad\"", 0⟩]
  ∧ stampedScanSpec
        (fun s => if s = "msgid \"\x7bu\x7d\"" then ["\x7bu\x7d"] else [])
        "" "a.po" "P" ""
        (stamp 1 ("msgid \"\x7bu\x7d\"" ::
            (List.replicate (u32size - 2) "# c" ++ ["msgstr \"bad\""]))) =
      [formatError ⟨"", "a.po", "P", "msgid \"\x7bu\x7d\"", "msgstr \"bad\"", u32size⟩]
  ∧ formatError ⟨"", "a.po", "P", "msgid \"\x7bu\x7d\"", "msgstr \"bad\"", 0⟩ ≠
      formatError ⟨"", "a.po", "P", "msgid \"\x7bu\x7d\"", "msgstr \"bad\"", u32size⟩ := by
  refine ⟨?_, ?_, ?_⟩
  · simp only [process_file, List.map_cons, List.map_append, List.map_replicate,
      List.map_nil]
    rw [processLines_msgid_step _ "" "a.po" "P" "" 1 "msgid \"\x7bu\x7d\""
          (List.replicate (u32size - 2) (Except.ok "# c") ++ [Except.ok "msgstr \"bad\""])
          (by decide),
        show (1 + 1) % u32size = 2 from by decide,
        processLines_skip_ignored _ "" "a.po" "P" "# c"
          (by decide) (by decide) (by decide)
          (u32size - 2) 2 (by decide) "msgid \"\x7bu\x7d\"" [Except.ok "msgstr \"bad\""],
        show (2 + (u32size - 2)) % u32size = 0 from by decide]
    rfl
  · rw [stamp_cons,
        stampedScanSpec_msgid_step
          (fun s => if s = "msgid \"\x7bu\x7d\"" then ["\x7bu\x7d"] else [])
          "" "a.po" "P" "" "msgid \"\x7bu\x7d\"" 1
          (stamp (1 + 1) (List.replicate (u32size - 2) "# c" ++ ["msgstr \"bad\""]))
          (by decide),
        stampedScanSpec_skip_ignored _ "" "a.po" "P" "# c"
          (by decide) (by decide) (by decide)
          (u32size - 2) (1 + 1) "msgid \"\x7bu\x7d\"" ["msgstr \"bad\""],
        show 1 + 1 + (u32size - 2) = u32size from by decide]
    rfl
  · decide

/-- Claim C6 (amended): the line index carried into each report is the
line's 1-based position as counted by the wrapping u32 arithmetic of the
counter, which still increments unconditionally for every physical line
read, msgid and ignored lines included; on any file with fewer than
2 ^ 32 lines every position fits in a u32 and the wrapped indices are
exactly the true 1-based positions, so the index reported for a failing
line is that line's position in the file. -/
theorem c6_line_index_wraps_u32 :
    (∀ (compile : String → Option (String → List String))
        (f : String → List String) (pbMsg path pattern : String) (ls : List String),
        compile pattern = some f →
        process_file compile pbMsg path pattern (Except.ok (ls.map Except.ok)) =
          Except.ok (stampedScanSpec f pbMsg path pattern "" (stampWrap 1 ls)))
  ∧ (∀ ls : List String, ls.length < u32size → stampWrap 1 ls = stamp 1 ls) := by
  constructor
  · intro compile f pbMsg path pattern ls hcomp
    exact processLines_eq_stamped compile f pbMsg path pattern hcomp ls "" 1
  · intro ls h
    exact stampWrap_eq_stamp ls 1 (by omega)

/-- Claim C6 (amended) witness: a four-line file, whose fourth line
fails the check; position 4 fits in a u32, so the wrap-stamping is the
true stamping and the report carries index 4. -/
theorem c6_line_index_wraps_u32_witness :
    process_file
        (fun q => if q = "P" then
          some (fun s => if s = "msgid \"\x7bu\x7d\"" then ["\x7bu\x7d"] else [])
         else none)
        "" "a.po" "P"
        (Except.ok (["# c", "msgid \"\x7bu\x7d\"", "msgstr \"\"", "\"bad\""].map Except.ok)) =
      Except.ok (stampedScanSpec
        (fun s => if s = "msgid \"\x7bu\x7d\"" then ["\x7bu\x7d"] else [])
        "" "a.po" "P" ""
        (stampWrap 1 ["# c", "msgid \"\x7bu\x7d\"", "msgstr \"\"", "\"bad\""]))
  ∧ stampWrap 1 ["# c", "msgid \"\x7bu\x7d\"", "msgstr \"\"", "\"bad\""] =
      stamp 1 ["# c", "msgid \"\x7bu\x7d\"", "msgstr \"\"", "\"bad\""] :=
  ⟨c6_line_index_wraps_u32.1 _
     (fun s => if s = "msgid \"\x7bu\x7d\"" then ["\x7bu\x7d"] else [])
     "" "a.po" "P" ["# c", "msgid \"\x7bu\x7d\"", "msgstr \"\"", "\"bad\""] rfl,
   c6_line_index_wraps_u32.2 ["# c", "msgid \"\x7bu\x7d\"", "msgstr \"\"", "\"bad\""]
     (by decide)⟩

/-! ## Claims about the Scan Coordinator -/

/-- Awaiting in spawn order, the first failing task makes the await loop
fail with that task's failure, whatever files follow it. -/
theorem awaitTasks_first_failure
    (compile : String → Option (String → List String)) (pbMsg pattern : String)
    (rf : String → Except String (List (Except String String))) (fl : ScanFailure) :
    ∀ (pre : List String) (p : String) (post : List String),
      (∀ q ∈ pre, ∃ es, process_file compile pbMsg q pattern (rf q) = Except.ok es) →
      process_file compile pbMsg p pattern (rf p) = Except.error fl →
      (awaitTasks compile pbMsg pattern rf (pre ++ p :: post)).2 = Except.error fl := by
  intro pre
  induction pre with
  | nil =>
    intro p post _ hp
    simp [awaitTasks, hp]
  | cons q qs ih =>
    intro p post hok hp
    obtain ⟨es, hq⟩ := hok q (List.mem_cons_self q qs)
    have hqs : ∀ x ∈ qs, ∃ es2, process_file compile pbMsg x pattern (rf x) = Except.ok es2 :=
      fun x hx => hok x (List.mem_cons_of_mem _ hx)
    simp only [List.cons_append, awaitTasks, hq]
    rw [List.append_eq, ih p post hqs hp]
    rfl

/-- In a run where every awaited task succeeded, the reports printed
during the await loop are exactly all_errors. -/
theorem awaitTasks_printed_eq
    (compile : String → Option (String → List String)) (pbMsg pattern : String)
    (rf : String → Except String (List (Except String String))) :
    ∀ (ps printed : List String) (es : List String),
      awaitTasks compile pbMsg pattern rf ps = (printed, Except.ok es) → printed = es := by
  intro ps
  induction ps with
  | nil =>
    intro printed es h
    simp only [awaitTasks, Prod.mk.injEq] at h
    rw [← h.1]
    exact Except.ok.inj h.2
  | cons p ps2 ih =>
    intro printed es h
    cases hpf : process_file compile pbMsg p pattern (rf p) with
    | error f =>
      simp only [awaitTasks, hpf, Prod.mk.injEq] at h
      exact absurd h.2 (by simp)
    | ok errs =>
      simp only [awaitTasks, hpf] at h
      rcases hr : awaitTasks compile pbMsg pattern rf ps2 with ⟨pr, res⟩
      rw [hr] at h
      cases res with
      | error f => simp [Except.map, Prod.mk.injEq] at h
      | ok es2 =>
        simp only [Except.map, Prod.mk.injEq] at h
        rw [← h.1, ← Except.ok.inj h.2, ih pr es2 hr]

/-- Claim C7: an open failure or a mid-stream read error makes the
per-file scan return an IOFailure immediately, abandoning the remaining
lines, and the coordinator escalates the first such failure it awaits
into a runtime failure for the whole run, whatever files remain. -/
theorem c7_io_failure_escalates :
    (∀ (compile : String → Option (String → List String))
        (pbMsg path pattern e : String),
        process_file compile pbMsg path pattern (Except.error e) =
          Except.error (ScanFailure.ioError e))
  ∧ (∀ (compile : String → Option (String → List String))
        (pbMsg path pattern msgid : String) (i : Nat) (e : String)
        (rest : List (Except String String)),
        processLines compile pbMsg path pattern msgid i (Except.error e :: rest) =
          Except.error (ScanFailure.ioError e))
  ∧ (∀ (compile : String → Option (String → List String))
        (dir pattern : String) (world : World)
        (entries : List (Except String DirEntry))
        (pre : List String) (p : String) (post : List String) (e : String),
        world.dirEntries = Except.ok entries →
        gatherPoFiles entries = Except.ok (pre ++ p :: post) →
        (∀ q ∈ pre, ∃ es, process_file compile "" q pattern (world.readFile q) =
          Except.ok es) →
        process_file compile "" p pattern (world.readFile p) =
          Except.error (ScanFailure.ioError e) →
        (mainRun compile dir pattern world).1 = ProcessOutcome.runtimeError e) := by
  refine ⟨fun _ _ _ _ _ => rfl, fun _ _ _ _ _ _ _ _ => rfl, ?_⟩
  intro compile dir pattern world entries pre p post e hentries hgather hok hp
  have hfail := awaitTasks_first_failure compile "" pattern world.readFile
    (ScanFailure.ioError e) pre p post hok hp
  rcases hA : awaitTasks compile "" pattern world.readFile (pre ++ p :: post) with ⟨printed, res⟩
  rw [hA] at hfail
  simp only at hfail
  have hne : ((pre ++ p :: post).isEmpty) = false := by
    cases pre <;> rfl
  simp [mainRun, hentries, hgather, hne, hA, hfail]

/-- Claim C7 witness: a directory with a readable file, a file whose
second line read fails, and a third file never reached; the run fails
with the read error. -/
theorem c7_io_failure_escalates_witness :
    process_file (fun _ => some (fun _ => [])) "" "a.po" "P" (Except.error "denied") =
      Except.error (ScanFailure.ioError "denied")
  ∧ processLines (fun _ => some (fun _ => [])) "" "a.po" "P" "m" 2
        (Except.error "disk" :: [Except.ok "msgstr \"x\""]) =
      Except.error (ScanFailure.ioError "disk")
  ∧ (mainRun (fun _ => some (fun _ => [])) "d" "P"
        ⟨Except.ok [Except.ok ⟨true, some "po", "a.po"⟩,
                    Except.ok ⟨true, some "po", "b.po"⟩,
                    Except.ok ⟨true, some "po", "c.po"⟩],
         fun q => if q = "b.po" then Except.error "disk"
                  else Except.ok [Except.ok "msgid \"x\""]⟩).1 =
      ProcessOutcome.runtimeError "disk" :=
  ⟨c7_io_failure_escalates.1 _ "" "a.po" "P" "denied",
   c7_io_failure_escalates.2.1 _ "" "a.po" "P" "m" 2 "disk" [Except.ok "msgstr \"x\""],
   c7_io_failure_escalates.2.2 _ "d" "P"
     ⟨Except.ok [Except.ok ⟨true, some "po", "a.po"⟩,
                 Except.ok ⟨true, some "po", "b.po"⟩,
                 Except.ok ⟨true, some "po", "c.po"⟩],
      fun q => if q = "b.po" then Except.error "disk"
               else Except.ok [Except.ok "msgid \"x\""]⟩
     [Except.ok ⟨true, some "po", "a.po"⟩,
      Except.ok ⟨true, some "po", "b.po"⟩,
      Except.ok ⟨true, some "po", "c.po"⟩]
     ["a.po"] "b.po" ["c.po"] "disk" rfl rfl
     (by intro q hq; simp at hq; subst hq; exact ⟨[], rfl⟩) rfl⟩

/-- Claim C8: once files were found and every awaited scan succeeded, the
run exits with failure exactly when the merged error reports are
non-empty, after printing every report; with zero mismatches it succeeds
and prints the final Done line. -/
theorem c8_exit_status
    (compile : String → Option (String → List String)) (dir pattern : String)
    (world : World) (entries : List (Except String DirEntry))
    (poFiles printed allErrors : List String)
    (hentries : world.dirEntries = Except.ok entries)
    (hgather : gatherPoFiles entries = Except.ok poFiles)
    (hne : poFiles ≠ [])
    (hawait : awaitTasks compile "" pattern world.readFile poFiles =
      (printed, Except.ok allErrors)) :
    mainRun compile dir pattern world =
      if allErrors.isEmpty then
        (ProcessOutcome.success, [processingMsg dir, doneMsg])
      else
        (ProcessOutcome.exitFailure, processingMsg dir :: allErrors) := by
  have hpr : printed = allErrors :=
    awaitTasks_printed_eq compile "" pattern world.readFile poFiles printed allErrors hawait
  subst hpr
  have hE : poFiles.isEmpty = false := by
    cases poFiles with
    | nil => exact absurd rfl hne
    | cons a l => rfl
  cases hAE : printed.isEmpty with
  | true =>
    have : printed = [] := by
      cases printed with
      | nil => rfl
      | cons a l => exact absurd hAE (by simp)
    subst this
    simp [mainRun, hentries, hgather, hE, hawait]
  | false =>
    simp [mainRun, hentries, hgather, hE, hawait, hAE]

/-- Claim C8 witness: a run over two files with one mismatch exits with
failure after printing the report, and the same run with a clean second
file succeeds and prints Done. -/
theorem c8_exit_status_witness :
    mainRun
        (fun q => if q = "P" then
          some (fun s => if s = "msgid \"\x7bu\x7d\"" then ["\x7bu\x7d"] else [])
         else none)
        "d" "P"
        ⟨Except.ok [Except.ok ⟨true, some "po", "a.po"⟩],
         fun _ => Except.ok [Except.ok "msgid \"\x7bu\x7d\"", Except.ok "msgstr \"v\""]⟩ =
      (ProcessOutcome.exitFailure,
        [processingMsg "d",
         formatError ⟨"", "a.po", "P", "msgid \"\x7bu\x7d\"", "msgstr \"v\"", 2⟩])
  ∧ mainRun
        (fun q => if q = "P" then
          some (fun s => if s = "msgid \"\x7bu\x7d\"" then ["\x7bu\x7d"] else [])
         else none)
        "d" "P"
        ⟨Except.ok [Except.ok ⟨true, some "po", "a.po"⟩],
         fun _ => Except.ok [Except.ok "msgid \"\x7bu\x7d\"", Except.ok "msgstr \"\x7bu\x7d!\""]⟩ =
      (ProcessOutcome.success, [processingMsg "d", doneMsg]) :=
  ⟨c8_exit_status _ "d" "P"
     ⟨Except.ok [Except.ok ⟨true, some "po", "a.po"⟩],
      fun _ => Except.ok [Except.ok "msgid \"\x7bu\x7d\"", Except.ok "msgstr \"v\""]⟩
     [Except.ok ⟨true, some "po", "a.po"⟩] ["a.po"]
     [formatError ⟨"", "a.po", "P", "msgid \"\x7bu\x7d\"", "msgstr \"v\"", 2⟩]
     [formatError ⟨"", "a.po", "P", "msgid \"\x7bu\x7d\"", "msgstr \"v\"", 2⟩]
     rfl rfl (by decide) rfl,
   c8_exit_status _ "d" "P"
     ⟨Except.ok [Except.ok ⟨true, some "po", "a.po"⟩],
      fun _ => Except.ok [Except.ok "msgid \"\x7bu\x7d\"", Except.ok "msgstr \"\x7bu\x7d!\""]⟩
     [Except.ok ⟨true, some "po", "a.po"⟩] ["a.po"] [] []
     rfl rfl (by decide) rfl⟩

/-- With a listing whose entries all succeed and none of which is a
regular file with extension po, the spawn loop selects nothing. -/
theorem gatherPoFiles_none (es : List DirEntry)
    (h : ∀ en ∈ es, ¬(en.isFile = true ∧ en.ext = some "po")) :
    gatherPoFiles (es.map Except.ok) = Except.ok [] := by
  induction es with
  | nil => rfl
  | cons en rest ih =>
    have hcond : (en.isFile && en.ext == some "po") = false := by
      have hen := h en (List.mem_cons_self en rest)
      cases hif : en.isFile <;> cases hex : en.ext == some "po" <;>
        simp_all [beq_iff_eq]
    simp only [List.map_cons, gatherPoFiles, hcond, Bool.false_eq_true, if_false]
    exact ih fun x hx => h x (List.mem_cons_of_mem _ hx)

/-- Claim C9: when the directory listing succeeds and holds no regular
file with extension po, the run prints the no-files diagnostic and exits
with failure; the result is the same for every regex engine and every
file-content assignment, so no file is scanned and the Matcher is never
invoked. -/
theorem c9_no_po_files_exit
    (compile : String → Option (String → List String)) (dir pattern : String)
    (world : World) (es : List DirEntry)
    (hentries : world.dirEntries = Except.ok (es.map Except.ok))
    (hnone : ∀ en ∈ es, ¬(en.isFile = true ∧ en.ext = some "po")) :
    mainRun compile dir pattern world = (ProcessOutcome.exitFailure, [noPoMsg dir])
  ∧ ∀ (compile2 : String → Option (String → List String))
      (rf2 : String → Except String (List (Except String String))),
      mainRun compile2 dir pattern ⟨world.dirEntries, rf2⟩ =
        (ProcessOutcome.exitFailure, [noPoMsg dir]) := by
  have hg := gatherPoFiles_none es hnone
  constructor
  · simp [mainRun, hentries, hg]
  · intro compile2 rf2
    simp [mainRun, hentries, hg]

/-- Claim C9 witness: a directory with a non-po file and a directory
entry; the run exits with the diagnostic whatever engine or contents are
supplied. -/
theorem c9_no_po_files_exit_witness :
    mainRun (fun _ => some (fun _ => [])) "d" "P"
        ⟨Except.ok ([⟨true, some "txt", "a.txt"⟩,
                     ⟨false, some "po", "sub.po"⟩].map Except.ok),
         fun _ => Except.error "never read"⟩ =
      (ProcessOutcome.exitFailure, [noPoMsg "d"]) :=
  (c9_no_po_files_exit _ "d" "P"
    ⟨Except.ok ([⟨true, some "txt", "a.txt"⟩,
                 ⟨false, some "po", "sub.po"⟩].map Except.ok),
     fun _ => Except.error "never read"⟩
    [⟨true, some "txt", "a.txt"⟩, ⟨false, some "po", "sub.po"⟩]
    rfl (by decide)).1

/-! ## Claim C5: where the pattern is compiled -/

/-- Claim C5 counterexample: the Matcher itself compiles the pattern.
With an engine rejecting the pattern, find_missing_interpolations — not
startup — fails with the unwrap panic; and a whole run over one file
reaches file I/O (the processing banner is printed and the file's lines
are read up to its msgstr line) before that failure surfaces, so the
rejection is neither once-at-startup nor outside the Matcher. -/
theorem c5_pattern_compiled_once_counterexample :
    find_missing_interpolations (fun _ => none)
        ⟨"", "a.po", "(", "msgid \"a\"", "msgstr \"b\"", 2⟩ =
      Except.error unwrapPanicMsg
  ∧ mainRun (fun _ => none) "d" "("
        ⟨Except.ok [Except.ok ⟨true, some "po", "a.po"⟩],
         fun _ => Except.ok [Except.ok "msgid \"a\"", Except.ok "msgstr \"b\""]⟩ =
      (ProcessOutcome.runtimeError unwrapPanicMsg, [processingMsg "d"]) :=
  ⟨rfl, rfl⟩

/-- Claim C5 as amended: the Matcher compiles the pattern on every
invocation; a pattern that fails to compile panics at the first Matcher
invocation — the first msgstr- or quote-prefixed line scanned — which the
task machinery escalates as a scan failure, not a startup error; only for
a pattern that does compile is the Matcher a total function of its
inputs. -/
theorem c5_pattern_compiled_in_matcher :
    (∀ (compile : String → Option (String → List String))
        (params : InterpolationParams),
        compile params.pattern = none →
        find_missing_interpolations compile params = Except.error unwrapPanicMsg)
  ∧ (∀ (compile : String → Option (String → List String))
        (pbMsg path pattern msgid : String) (i : Nat) (line : String)
        (rest : List (Except String String)),
        compile pattern = none →
        strStarts line "msgid" = false →
        (strStarts line "msgstr" = true ∨ strStarts line "\"" = true) →
        processLines compile pbMsg path pattern msgid i (Except.ok line :: rest) =
          Except.error (ScanFailure.panicked unwrapPanicMsg))
  ∧ (∀ (compile : String → Option (String → List String))
        (params : InterpolationParams) (f : String → List String),
        compile params.pattern = some f →
        ∃ r, find_missing_interpolations compile params = Except.ok r) := by
  refine ⟨?_, ?_, ?_⟩
  · intro compile params hc
    simp [find_missing_interpolations, hc]
  · intro compile pbMsg path pattern msgid i line rest hc h1 h2
    have hq : (strStarts line "msgstr" || strStarts line "\"") = true := by
      rcases h2 with h | h <;> simp [h]
    have hm : find_missing_interpolations compile ⟨pbMsg, path, pattern, msgid, line, i⟩ =
        Except.error unwrapPanicMsg := by
      simp [find_missing_interpolations, hc]
    simp [processLines, h1, hq, hm]
  · intro compile params f hc
    simp only [find_missing_interpolations, hc]
    by_cases hl : (f params.last_msgid).length ≠ (f params.line).length
    · exact ⟨missingSearch params (f params.last_msgid), by rw [if_pos hl]⟩
    · exact ⟨none, by rw [if_neg hl]⟩

/-- Claim C5 amended witness: a rejected pattern panics inside the
Matcher at the first translation line; an accepted one never panics. -/
theorem c5_pattern_compiled_in_matcher_witness :
    find_missing_interpolations (fun _ => none)
        ⟨"", "a.po", "(", "msgid \"a\"", "msgstr \"b\"", 2⟩ =
      Except.error unwrapPanicMsg
  ∧ processLines (fun _ => none) "" "a.po" "(" "msgid \"a\"" 2
        (Except.ok "msgstr \"b\"" :: [Except.ok "\"more\""]) =
      Except.error (ScanFailure.panicked unwrapPanicMsg)
  ∧ ∃ r, find_missing_interpolations (fun _ => some (fun _ => []))
        ⟨"", "a.po", "(", "msgid \"a\"", "msgstr \"b\"", 2⟩ = Except.ok r :=
  ⟨c5_pattern_compiled_in_matcher.1 _ ⟨"", "a.po", "(", "msgid \"a\"", "msgstr \"b\"", 2⟩ rfl,
   c5_pattern_compiled_in_matcher.2.1 _ "" "a.po" "(" "msgid \"a\"" 2 "msgstr \"b\""
     [Except.ok "\"more\""] rfl (by decide) (Or.inl (by decide)),
   c5_pattern_compiled_in_matcher.2.2 _ ⟨"", "a.po", "(", "msgid \"a\"", "msgstr \"b\"", 2⟩
     (fun _ => []) rfl⟩
